import Mathlib

/-!
Shallow embedding of gold_price_calculator.py (the pricing computation of
the Gold_Price_Calculator repository).  Python floats are modelled as exact
rationals; a Python exception is modelled as the error side of Except with
an explicit error value.  Line numbers refer to src/gold_price_calculator.py.
-/

/-- A Python runtime exception, as far as this script can raise one:
a NameError on an undefined global, a KeyError on a missing DataFrame
column, or the InvalidInputError the specification postulates. -/
inductive PyError where
  | nameError (name : String)
  | keyError (key : String)
  | invalidInput (field : String)
deriving DecidableEq, Repr

/-- True exactly on the InvalidInputError constructor. -/
def isInvalidInputError : PyError → Bool
  | .invalidInput _ => true
  | _ => false

/-- Line 31: PURITY = \x7b24: 0.999, 22: 0.916, 20: 0.833, 18: 0.750\x7d,
as a dictionary lookup (some on the four keys, none otherwise). -/
def PURITY_find (k : ℚ) : Option ℚ :=
  if k = 24 then some (999/1000)
  else if k = 22 then some (916/1000)
  else if k = 20 then some (833/1000)
  else if k = 18 then some (750/1000)
  else none

/-- Python dict.get with a default: PURITY.get(carat, fallback). -/
def PURITY_get (k fallback : ℚ) : ℚ := (PURITY_find k).getD fallback

/-- The keys of the PURITY table (line 31). -/
def purity_keys : List ℚ := [24, 22, 20, 18]

/-- Lines 50-55: price_for_carat(price_24k, carat) returns
price_24k * PURITY[carat] / PURITY[24] when carat is a key of PURITY,
else price_24k * (carat / 24.0). -/
def price_for_carat (price_24k carat : ℚ) : ℚ :=
  match PURITY_find carat with
  | some p => price_24k * p / (999/1000)
  | none => price_24k * (carat / 24)

/-- Lines 41-45: the price recursion of simulate_historical.  The random
draws (one per simulated day) are passed as an explicit list, so days =
shocks.length; each step sets price = max(1000.0, price * (1 + shock)) and
appends that price. -/
def simulate_prices : ℚ → List ℚ → List ℚ
  | _, [] => []
  | price, shock :: rest =>
      max 1000 (price * (1 + shock)) :: simulate_prices (max 1000 (price * (1 + shock))) rest

/-- Line 46: the columns of the DataFrame returned by simulate_historical,
pd.DataFrame(\x7b"data": dates, "Price_24k": prices\x7d). -/
def simulate_historical_columns : List String := ["data", "Price_24k"]

/-- Line 85: the options of the making-charge-type radio widget. -/
def making_type_options : List String := ["% of gold", "₹per gram"]

/-- Lines 104-107: the making charge.  The condition compares making_type
with the literal string of line 104. -/
def making_charge (making_type : String) (gold_value making_val effective_grams : ℚ) : ℚ :=
  if making_type = "% of gold value" then gold_value * (making_val / 100)
  else making_val * effective_grams

/-- The values the form widgets of lines 77-93 bind at module scope, plus
the sidebar rate of line 65.  Strings stay strings, numbers are rationals. -/
structure CalcInputs where
  carat : ℚ
  grams : ℚ
  item_name : String
  making_type : String
  making_val : ℚ
  wastage_percent : ℚ
  hallmark : String
  hallmark_charge : ℚ
  gst : ℚ
  manual_24k : ℚ
deriving Repr

/-- The itemized result the submitted block computes (lines 97-111). -/
structure Breakdown where
  rate_per_g : ℚ
  effective_grams : ℚ
  gold_value : ℚ
  making_charge : ℚ
  hallmark_charge : ℚ
  pre_tax : ℚ
  gst_amount : ℚ
  final_price : ℚ
deriving DecidableEq, Repr

/-- Lines 97-111 as pure arithmetic, given a value rate_24k for the name
the block reads at line 98.  Order and operand order follow the source:
pre_tax = gold_value + hallmark_charge + making_charge (line 109). -/
def billBreakdown (rate_24k : ℚ) (i : CalcInputs) : Breakdown :=
  let rate_per_g := price_for_carat rate_24k i.carat
  let effective_grams := i.grams * (1 + i.wastage_percent / 100)
  let gold_value := rate_per_g * effective_grams
  let mc := making_charge i.making_type gold_value i.making_val effective_grams
  let pre_tax := gold_value + i.hallmark_charge + mc
  let gst_amount := pre_tax * (i.gst / 100)
  let final_price := pre_tax + gst_amount
  ⟨rate_per_g, effective_grams, gold_value, mc, i.hallmark_charge, pre_tax, gst_amount, final_price⟩

/-- The numeric names bound at module scope when the submitted block of
line 95 starts running: the sidebar rate (line 65) and the form fields
(lines 81-91).  No assignment in the file binds rate_24k or base_24k. -/
def numericEnv (i : CalcInputs) : List (String × ℚ) :=
  [("manual_24k", i.manual_24k), ("carat", i.carat), ("grams", i.grams),
   ("making_val", i.making_val), ("wastage_percent", i.wastage_percent),
   ("hallmark_charge", i.hallmark_charge), ("gst", i.gst)]

/-- Python global-name resolution over an association list of bound
numeric names: a hit returns the value, a miss raises NameError. -/
def lookupName (env : List (String × ℚ)) (x : String) : Except PyError ℚ :=
  match env.find? (fun p => p.1 == x) with
  | some p => .ok p.2
  | none => .error (.nameError x)

/-- Lines 95-111, with name resolution made explicit: line 97 computes the
purity factor, line 98 reads the global rate_24k (resolved against the
names the script actually binds) and the rest is billBreakdown. -/
def submittedBlock (i : CalcInputs) : Except PyError Breakdown := do
  let _purity_factor := PURITY_get i.carat (i.carat / 24)
  let rate_24k ← lookupName (numericEnv i) "rate_24k"
  return billBreakdown rate_24k i

/-- Every name assigned anywhere in gold_price_calculator.py: the imports
of lines 1-7, the module-level definitions and widgets, and the names
bound inside the submitted block and the right column. -/
def assignedNames : List String :=
  ["st", "pd", "np", "requests", "alt", "os", "datetime", "timedelta",
   "inject_dark_mode", "PURITY", "simulate_historical", "price_for_carat",
   "dark_mode", "manual_24k", "shop_mode", "col_left", "col_right",
   "col1", "col2", "col3", "carat", "grams", "item_name", "making_type",
   "making_val", "wastage_percent", "hallmark", "hallmark_charge", "gst",
   "submitted", "purity_factor", "rate_per_g", "effective_grams",
   "gold_value", "making_charge", "pre_tax", "gst_amount", "final_price",
   "breakdown", "df_break", "tx", "chart_df", "bar", "hist", "hist_chart",
   "dates", "prices", "price", "shock", "df_hist", "tx_df", "csv"]

/-- A value stored in the transaction dictionary of lines 138-151:
either a string or a number. -/
inductive TxValue where
  | str (s : String)
  | num (q : ℚ)
deriving DecidableEq, Repr

/-- Round half to even at an integer, as Python round does on exact
values. -/
def roundHalfEven (x : ℚ) : ℤ :=
  if x - ⌊x⌋ < 1/2 then ⌊x⌋
  else if x - ⌊x⌋ > 1/2 then ⌊x⌋ + 1
  else if ⌊x⌋ % 2 = 0 then ⌊x⌋ else ⌊x⌋ + 1

/-- Python round(x, n) on the exact rational value. -/
def pyRound (x : ℚ) (n : ℕ) : ℚ := (roundHalfEven (x * 10 ^ n) : ℚ) / 10 ^ n

/-- Lines 138-151: the transaction record saved into the session ledger,
with its keys in source order and the rounding the source applies. -/
def tx_record (timestamp item : String)
    (carat grams wastage_percent effective_grams rate_per_g gold_value
      mc hallmark_charge gst final_price : ℚ) : List (String × TxValue) :=
  [("timestamp", .str timestamp),
   ("item", .str item),
   ("carat", .num carat),
   ("grams", .num grams),
   ("wastage_%", .num wastage_percent),
   ("effective_grams", .num (pyRound effective_grams 3)),
   ("rate_per_g", .num (pyRound rate_per_g 2)),
   ("gold_value", .num (pyRound gold_value 2)),
   ("making_charge", .num (pyRound mc 2)),
   ("hallmark", .num hallmark_charge),
   ("gst", .num gst),
   ("final_price", .num (pyRound final_price 2))]

/-- True on a string value of the invoice-identifier shape the
specification describes (it begins with INV-). -/
def isInvoiceValue : TxValue → Bool
  | .str s => List.isPrefixOf "INV-".data s.data
  | .num _ => false

/-! Claim theorems. -/

/-- C1: the claim says that in percentage-of-gold-value mode the making
charge is gold_value * making_value / 100.  The percentage option the radio
of line 85 offers is the string percent-of-gold, but line 104 compares
against a longer string that the widget never produces, so the code takes
the fixed-per-gram branch even in percentage mode: at gold_value = 100,
making_val = 2, effective_grams = 10 it returns 20 instead of 2. -/
theorem C1_percent_mode_takes_per_gram_branch :
    making_charge "% of gold" 100 2 10 = 20 ∧
    (100 * (2 / 100) : ℚ) = 2 ∧
    making_charge "% of gold" 100 2 10 ≠ 100 * (2 / 100) ∧
    "% of gold" ∈ making_type_options ∧
    "% of gold value" ∉ making_type_options := by
  refine ⟨?_, by norm_num, ?_, ?_, ?_⟩
  · norm_num [making_charge]
    decide
  · norm_num [making_charge]
    decide
  · decide
  · decide

/-- C3 counterexample: a concretely recorded transaction (lines 138-151)
contains no value of the invoice-identifier form INV-date-sequence; the
record has no invoice field at all. -/
theorem C3_no_invoice_identifier_counterexample :
    ((tx_record "2026-10-12T10:00:00" "Gold Ring" 22 10 0 10 6000 60000 1200 50 3 63654).any
      (fun e => isInvoiceValue e.2)) = false := rfl

/-- C3 amended: a recorded transaction carries exactly the twelve fields
of lines 138-151, in source order; no invoice identifier is among them. -/
theorem C3_tx_record_fields (timestamp item : String)
    (carat grams wastage_percent effective_grams rate_per_g gold_value mc
      hallmark_charge gst final_price : ℚ) :
    (tx_record timestamp item carat grams wastage_percent effective_grams
        rate_per_g gold_value mc hallmark_charge gst final_price).map Prod.fst =
      ["timestamp", "item", "carat", "grams", "wastage_%", "effective_grams",
       "rate_per_g", "gold_value", "making_charge", "hallmark", "gst", "final_price"] := rfl

/-- C5: for every resolved 24k rate and every input, the breakdown of
lines 109-111 satisfies final_price = pre_tax + gst_amount and
pre_tax = gold_value + making_charge + hallmark_charge. -/
theorem C5_additive_decomposition (rate_24k : ℚ) (i : CalcInputs) :
    (billBreakdown rate_24k i).final_price =
        (billBreakdown rate_24k i).pre_tax + (billBreakdown rate_24k i).gst_amount ∧
    (billBreakdown rate_24k i).pre_tax =
        (billBreakdown rate_24k i).gold_value + (billBreakdown rate_24k i).making_charge +
          (billBreakdown rate_24k i).hallmark_charge := by
  refine ⟨rfl, ?_⟩
  simp only [billBreakdown]
  ring

/-- C7: every price the simulator emits is at least 1000, for every base
rate and every list of random draws (hence every day count and
volatility). -/
theorem C7_simulated_prices_floored (base : ℚ) (shocks : List ℚ) (p : ℚ)
    (hp : p ∈ simulate_prices base shocks) : 1000 ≤ p := by
  induction shocks generalizing base with
  | nil => simp [simulate_prices] at hp
  | cons s rest ih =>
      simp only [simulate_prices, List.mem_cons] at hp
      rcases hp with h | h
      · subst h; exact le_max_left _ _
      · exact ih _ h

/-- C7 witness: with base 6000 and the single draw -2 the emitted price is
the floor value 1000, and the theorem applies to it. -/
theorem C7_witness : (1000 : ℚ) ∈ simulate_prices 6000 [-2] ∧ (1000 : ℚ) ≤ 1000 := by
  have hm : (1000 : ℚ) ∈ simulate_prices 6000 [-2] := by
    norm_num [simulate_prices, max_def]
  exact ⟨hm, C7_simulated_prices_floored 6000 [-2] 1000 hm⟩

/-- C9: converting a rate at 24 karat is the identity:
price_for_carat r 24 = r * (999/1000) / (999/1000) = r. -/
theorem C9_rate_identity_at_24 (r : ℚ) : price_for_carat r 24 = r := by
  have h : price_for_carat r 24 = r * (999/1000) / (999/1000) := by
    norm_num [price_for_carat, PURITY_find]
  rw [h, mul_div_assoc, div_self (by norm_num : (999/1000 : ℚ) ≠ 0), mul_one]

/-- C2: the claim says a business-valid input runs to completion with no
exception; in fact every run of the submitted block fails with a NameError,
because line 98 reads the global rate_24k and no assignment in the script
binds that name (the sidebar rate is bound as manual_24k, line 65). -/
theorem C2_valid_input_still_raises (i : CalcInputs)
    (hg : 0 < i.grams) (hr : 0 < i.manual_24k) (hw : 0 ≤ i.wastage_percent)
    (hm : 0 ≤ i.making_val) (hh : 0 ≤ i.hallmark_charge) (ht : 0 ≤ i.gst) :
    submittedBlock i = .error (.nameError "rate_24k") := rfl

/-- C2 witness: the default form values (carat 22, 10 grams, 2 percent
making, no wastage, hallmark 50, GST 3, manual rate 6000) are business
valid, and the block raises the NameError on them. -/
theorem C2_witness :
    (0:ℚ) < 10 ∧ (0:ℚ) < 6000 ∧ (0:ℚ) ≤ 0 ∧ (0:ℚ) ≤ 2 ∧ (0:ℚ) ≤ 50 ∧ (0:ℚ) ≤ 3 ∧
    submittedBlock ⟨22, 10, "Gold Ring", "% of gold", 2, 0, "Yes", 50, 3, 6000⟩ =
      .error (.nameError "rate_24k") :=
  ⟨by norm_num, by norm_num, le_refl 0, by norm_num, by norm_num, by norm_num,
   C2_valid_input_still_raises ⟨22, 10, "Gold Ring", "% of gold", 2, 0, "Yes", 50, 3, 6000⟩
     (by norm_num) (by norm_num) (le_refl 0) (by norm_num) (by norm_num) (by norm_num)⟩

/-- C4 counterexample: on an invalid input (weight -5, non-positive) the
block raises a NameError on rate_24k, not an InvalidInputError naming the
offending field. -/
theorem C4_no_invalid_input_error_counterexample :
    submittedBlock ⟨22, -5, "Gold Ring", "% of gold", 2, 0, "Yes", 50, 3, 6000⟩ =
      .error (.nameError "rate_24k") ∧
    isInvalidInputError (.nameError "rate_24k") = false ∧
    (-5 : ℚ) ≤ 0 :=
  ⟨rfl, rfl, by norm_num⟩

/-- C4 amended: the core performs no input validation at all and defines
no InvalidInputError; for every input, valid or invalid, the block fails
with the same NameError on rate_24k before any business check, and no
business input is clamped by the core. -/
theorem C4_core_never_validates (i : CalcInputs) :
    submittedBlock i = .error (.nameError "rate_24k") ∧
    isInvalidInputError (.nameError "rate_24k") = false :=
  ⟨rfl, rfl⟩

/-- C6: the per-karat series derivation of lines 167-170 never executes:
the call site reads the unbound global base_24k, and the DataFrame built
at line 46 names its price column Price_24k while line 170 reads
price_24k, a missing key. -/
theorem C6_per_karat_series_never_built :
    "base_24k" ∉ assignedNames ∧
    "price_24k" ∉ simulate_historical_columns ∧
    "Price_24k" ∈ simulate_historical_columns := by
  refine ⟨?_, ?_, ?_⟩
  · decide
  · decide
  · decide

/-- Helper: dividing by the fixed 24k purity preserves strict order of the
scaled values. -/
theorem purity_scale_lt (r a b : ℚ) (hr : 0 < r) (hab : a < b) :
    r * a / (999/1000) < r * b / (999/1000) := by
  have h : r * a < r * b := by nlinarith
  have hpos : (0:ℚ) < 999/1000 := by norm_num
  exact (div_lt_div_right hpos).2 h

/-- Helper: the converted rate at key 18 of the purity table. -/
theorem price_for_carat_at_18 (r : ℚ) :
    price_for_carat r 18 = r * (750/1000) / (999/1000) := by
  norm_num [price_for_carat, PURITY_find]

/-- Helper: the converted rate at key 20 of the purity table. -/
theorem price_for_carat_at_20 (r : ℚ) :
    price_for_carat r 20 = r * (833/1000) / (999/1000) := by
  norm_num [price_for_carat, PURITY_find]

/-- Helper: the converted rate at key 22 of the purity table. -/
theorem price_for_carat_at_22 (r : ℚ) :
    price_for_carat r 22 = r * (916/1000) / (999/1000) := by
  norm_num [price_for_carat, PURITY_find]

/-- Helper: the converted rate at key 24 of the purity table. -/
theorem price_for_carat_at_24 (r : ℚ) :
    price_for_carat r 24 = r * (999/1000) / (999/1000) := by
  norm_num [price_for_carat, PURITY_find]

/-- C8: on the keys of the purity table, a lower karat gives a strictly
lower converted rate, for every positive reference rate. -/
theorem C8_rate_monotone_in_karat (k1 k2 r : ℚ)
    (h1 : k1 ∈ purity_keys) (h2 : k2 ∈ purity_keys) (hlt : k1 < k2) (hr : 0 < r) :
    price_for_carat r k1 < price_for_carat r k2 := by
  simp only [purity_keys, List.mem_cons, List.not_mem_nil, or_false] at h1 h2
  rcases h1 with rfl | rfl | rfl | rfl <;> rcases h2 with rfl | rfl | rfl | rfl <;>
    first
      | (simp only [price_for_carat_at_18, price_for_carat_at_20,
            price_for_carat_at_22, price_for_carat_at_24]
         apply purity_scale_lt r _ _ hr
         norm_num
         done)
      | (exfalso
         revert hlt
         norm_num
         done)

/-- C8 witness: 18 and 22 are purity keys, 18 < 22, the rate 6000 is
positive, and the converted rates are strictly ordered. -/
theorem C8_witness :
    (18:ℚ) ∈ purity_keys ∧ (22:ℚ) ∈ purity_keys ∧ (18:ℚ) < 22 ∧ (0:ℚ) < 6000 ∧
    price_for_carat 6000 18 < price_for_carat 6000 22 :=
  ⟨by norm_num [purity_keys], by norm_num [purity_keys], by norm_num, by norm_num,
   C8_rate_monotone_in_karat 18 22 6000 (by norm_num [purity_keys])
     (by norm_num [purity_keys]) (by norm_num) (by norm_num)⟩

/-- C10 counterexample: with base rate 1000 and first draw -1/2 the series
begins with 1000, the base rate itself, although the draw is not zero (the
floor brings the shocked price back up to the base). -/
theorem C10_series_begins_with_base_counterexample :
    simulate_prices 1000 [-(1/2)] = [1000] ∧ (-(1/2) : ℚ) ≠ 0 := by
  constructor
  · norm_num [simulate_prices, max_def]
  · norm_num

/-- C10 amended: the first emitted price already has one shock and the
1000 floor applied, namely max 1000 (base * (1 + d)) for first draw d; it
equals the base rate exactly when d = 0 and base is at least 1000, or the
base is exactly 1000 and d is non-positive. -/
theorem C10_first_price_characterised (base d : ℚ) (rest : List ℚ) :
    (simulate_prices base (d :: rest)).head? = some (max 1000 (base * (1 + d))) ∧
    (max 1000 (base * (1 + d)) = base ↔ (d = 0 ∧ 1000 ≤ base) ∨ (base = 1000 ∧ d ≤ 0)) := by
  refine ⟨rfl, ?_, ?_⟩
  · intro h
    rcases le_or_lt (base * (1 + d)) 1000 with hle | hgt
    · have hmax : max 1000 (base * (1 + d)) = 1000 := max_eq_left hle
      have hb : base = 1000 := by rw [hmax] at h; exact h.symm
      subst hb
      exact Or.inr ⟨rfl, by nlinarith⟩
    · have hmax : max 1000 (base * (1 + d)) = base * (1 + d) := max_eq_right (le_of_lt hgt)
      rw [hmax] at h
      have hbase : 1000 < base := by nlinarith
      have hd0 : base * d = 0 := by nlinarith
      rcases mul_eq_zero.mp hd0 with hb0 | hd
      · exact absurd hb0 (by nlinarith)
      · exact Or.inl ⟨hd, le_of_lt hbase⟩
  · rintro (⟨rfl, hb⟩ | ⟨rfl, hd⟩)
    · have h1 : base * (1 + 0) = base := by ring
      rw [h1]
      exact max_eq_right hb
    · have h1 : (1000:ℚ) * (1 + d) ≤ 1000 := by nlinarith
      exact max_eq_left h1
